import Mathlib

/-!
Verification development for the Door-Garage-Opener firmware.

The definitions below are a shallow embedding of the C++ source:
machine bytes become Nat with explicit reductions modulo 256 (and
modulo 2^32 for uint32), the SPI bus becomes an explicit state record,
and the bounded retry loops of avr_algorithms become a structurally
recursive combinator. Each definition carries a note pointing at the
source function it transcribes.
-/

set_option maxRecDepth 4000

/-- Transcription of avr_algorithms::repeat_withExitCondition (avr_algorithms.hpp):
runs the operation up to n times, stopping early when the operation
returns false (the C++ lambda returns true to request a retry). The
mutable captures of the C++ lambda are threaded as an explicit state. -/
def repeat_withExitCondition {σ : Type} (n : Nat) (operation : σ → σ × Bool) (s : σ) : σ :=
  match n with
  | 0 => s
  | Nat.succ m =>
      let r := operation s
      if r.2 then repeat_withExitCondition m operation r.1 else r.1

/-- SPI_MASK::Masks::AddressMask (CC1101_SPI_Config.h): 6-bit register address mask. -/
def SPI_MASK.AddressMask : Nat := 0x3F

/-- SPI_MASK::Masks::WriteSingle (0x7F): clearing bit 7 of the address byte;
for a Nat byte this is reduction modulo 128. -/
def SPI_MASK.WriteSingle : Nat := 0x7F

/-- ReadResult (SPIBus.h): status byte and register value of one read. -/
structure ReadResult where
  status : Nat
  value : Nat
deriving DecidableEq, Repr

/-- ReadResult::isValid (SPIBus.h): the read is valid iff neither byte is 0xFF. -/
def ReadResult.isValid (r : ReadResult) : Bool :=
  r.status != 0xFF && r.value != 0xFF

/-- The fake bus the testable properties of the spec run the register
protocol against: it honestly stores written register bytes, answers a
single-register read with the stored byte together with a fixed status
byte, and logs every accepted burst-write transaction. Strobe bytes do
not change the stored registers. -/
structure HonestBus where
  regs : Nat → Nat
  status : Nat
  bursts : List (Nat × List Nat)

/-- Effect of one single-register write transaction on the honest bus:
the addressed register now holds the written byte. -/
def HonestBus.write (b : HonestBus) (address value : Nat) : HonestBus :=
  { b with regs := fun a => if a = address then value % 256 else b.regs a }

/-- Transcription of SPIBus::readRegister (SPIBus.cpp lines 216-270):
rejects addresses above 0x3F with the invalid sentinel, otherwise
retries the read transaction up to 3 times while the result is invalid
and returns the last (possibly invalid) result. On the honest bus one
transaction yields the fixed status byte and the stored register byte. -/
def SPIBus.readRegister (b : HonestBus) (address : Nat) : ReadResult :=
  if address > SPI_MASK.AddressMask then { status := 0xFF, value := 0xFF }
  else
    let attempt : ReadResult → ReadResult × Bool := fun _ =>
      let result : ReadResult := { status := b.status % 256, value := b.regs address % 256 }
      if result.isValid then (result, false) else (result, true)
    repeat_withExitCondition 3 attempt { status := 0xFF, value := 0xFF }

/-- Transcription of SPIBus::writeRegister (SPIBus.cpp lines 152-207):
rejects addresses above 0x3F, otherwise up to 3 times writes the value
(the address byte is masked with WriteSingle, i.e. taken modulo 128)
and reads it back, stopping when the readback is valid and matches.
After the loop the source unconditionally executes `return false`;
there is no path returning true, which the returned Bool transcribes. -/
def SPIBus.writeRegister (b : HonestBus) (address value : Nat) : HonestBus × Bool :=
  if address > SPI_MASK.AddressMask then (b, false)
  else
    let attempt : HonestBus → HonestBus × Bool := fun bus =>
      let bus2 := bus.write (address % 128) value
      let readResult := SPIBus.readRegister bus2 address
      if readResult.isValid && (readResult.value == value % 256) then (bus2, false)
      else (bus2, true)
    (repeat_withExitCondition 3 attempt b, false)

@[ext]
theorem HonestBus.ext {a b : HonestBus} (hregs : a.regs = b.regs)
    (hstatus : a.status = b.status) (hbursts : a.bursts = b.bursts) : a = b := by
  cases a; cases b; simp_all

theorem HonestBus.write_write (b : HonestBus) (a v : Nat) :
    (b.write a v).write a v = b.write a v := by
  unfold HonestBus.write
  ext x
  · by_cases h : x = a <;> simp [h]
  · rfl
  · rfl

theorem SPIBus.readRegister_eq (b : HonestBus) (address : Nat)
    (h : address ≤ SPI_MASK.AddressMask) :
    SPIBus.readRegister b address =
      { status := b.status % 256, value := b.regs address % 256 } := by
  unfold SPIBus.readRegister
  rw [if_neg (by omega)]
  by_cases hv : (ReadResult.isValid { status := b.status % 256, value := b.regs address % 256 }) <;>
    simp [repeat_withExitCondition, hv]

theorem SPIBus.writeRegister_state (b : HonestBus) (address value : Nat)
    (h : address ≤ SPI_MASK.AddressMask) :
    (SPIBus.writeRegister b address value).1 = b.write address value := by
  have hmask : address % 128 = address := Nat.mod_eq_of_lt (by
    simp [SPI_MASK.AddressMask] at h; omega)
  unfold SPIBus.writeRegister
  rw [if_neg (by omega)]
  simp only [hmask]
  set c := fun bus : HonestBus =>
    let bus2 := bus.write address value
    let readResult := SPIBus.readRegister bus2 address
    if readResult.isValid && (readResult.value == value % 256) then (bus2, false)
    else (bus2, true) with hc
  have hstable : ∀ bus : HonestBus, (c bus).1 = bus.write address value := by
    intro bus
    simp only [hc]
    split <;> rfl
  -- each attempt leaves the state at (b.write address value): a second write of
  -- the same byte collapses by write_write, so the loop result is that state
  have hsecond : c (b.write address value) =
      ((b.write address value), (c (b.write address value)).2) := by
    have h1 := hstable (b.write address value)
    rw [HonestBus.write_write] at h1
    exact Prod.ext h1 rfl
  have hfirst : c b = ((b.write address value), (c b).2) :=
    Prod.ext (hstable b) rfl
  show (repeat_withExitCondition 3 c b) = b.write address value
  rw [show (3 : Nat) = Nat.succ 2 from rfl]
  unfold repeat_withExitCondition
  rw [hfirst]
  by_cases h1 : (c b).2 <;> simp only [h1, if_true, if_false]
  · unfold repeat_withExitCondition
    rw [hsecond]
    by_cases h2 : (c (b.write address value)).2 <;> simp only [h2, if_true, if_false]
    · unfold repeat_withExitCondition
      rw [hsecond]
      by_cases h3 : (c (b.write address value)).2 <;> simp only [h3, if_true, if_false]
      · unfold repeat_withExitCondition
        rfl
      · rfl
    · rfl
  · rfl

theorem SPIBus.writeRegister_result (b : HonestBus) (address value : Nat) :
    (SPIBus.writeRegister b address value).2 = false := by
  unfold SPIBus.writeRegister
  split <;> rfl

/-- A concrete honest bus: all registers zero, status byte 0x0F, no bursts. -/
def honestInit : HonestBus := { regs := fun _ => 0, status := 0x0F, bursts := [] }

/-- Claim C1: writeRegister(a, v) writes the register, reads it back, retries up
to 3 attempts until the readback equals v, returns false only after exhausting
the 3 attempts without a matching readback, and returns true when a readback
equals v within those attempts. The code violates the last part: the function
body ends in an unconditional return false, so even when the first readback
matches (as it does here on an honest bus) the result is false, contradicting
the doc comment of the source (return true if reg was correctly write). -/
theorem C1_writeRegister_always_false :
    (SPIBus.writeRegister honestInit 2 5).2 = false ∧
    (SPIBus.readRegister (SPIBus.writeRegister honestInit 2 5).1 2).isValid = true ∧
    (SPIBus.readRegister (SPIBus.writeRegister honestInit 2 5).1 2).value = 5 := by
  refine ⟨rfl, rfl, rfl⟩

/-- Claim C7: for every valid address a (0x00-0x3F) and byte v, against a fake
bus that honestly stores written values and returns the stored value with a
valid (non-0xFF) status on reads, writeRegister(a, v) followed by
readRegister(a) yields a ReadResult whose value field equals v. -/
theorem C7_write_read_roundtrip (b : HonestBus) (a v : Nat)
    (ha : a ≤ 0x3F) (hv : v < 256) (hs : b.status % 256 ≠ 0xFF) :
    (SPIBus.readRegister (SPIBus.writeRegister b a v).1 a).value = v := by
  rw [SPIBus.writeRegister_state b a v ha, SPIBus.readRegister_eq _ a ha]
  simp [HonestBus.write, Nat.mod_eq_of_lt hv]

theorem C7_witness :
    (2 : Nat) ≤ 0x3F ∧ (171 : Nat) < 256 ∧ honestInit.status % 256 ≠ 0xFF ∧
    (SPIBus.readRegister (SPIBus.writeRegister honestInit 2 171).1 2).value = 171 :=
  ⟨by decide, by decide, by decide,
    C7_write_read_roundtrip honestInit 2 171 (by decide) (by decide) (by decide)⟩

/-- SPI_MASK::Masks::writeBurstRegister (0x40): burst-write tag, OR-ed into the address byte. -/
def SPI_MASK.writeBurstTag : Nat := 0x40

/-- CC1101 register addresses used by the embedded code (CC1101.h). -/
def CC1101.Address.FREQ2 : Nat := 0x0D

def CC1101.Address.FREQ1 : Nat := 0x0E

def CC1101.Address.FREQ0 : Nat := 0x0F

def CC1101.Address.FREND0 : Nat := 0x22

def CC1101.Address.PATABLE : Nat := 0x3E

def CC1101.Address.PARTNUM : Nat := 0x30

def CC1101.Address.MARCSTATE : Nat := 0x35

/-- CC1101::Value::FREND0 (CC1101.h): the configuration VALUE 0x11 for the
front-end register; the source erroneously also uses it as a register address. -/
def CC1101.Value.FREND0 : Nat := 0x11

/-- CC1101 strobe command byte codes (CC1101.h, Strobes::Command). -/
def CC1101.Strobes.SIDLE : Nat := 0x36

def CC1101.Strobes.STX : Nat := 0x35

/-- Transcription of SPIBus::writeBurstRegister (SPIBus.cpp lines 66-97):
rejects a null buffer, length 0 or above 64, then rejects any address other
than 0x03 and 0x3F; otherwise transfers the burst-write-tagged address byte
followed by the first length data bytes. Returns the resulting bus state (the
accepted transaction is logged), the list of transferred bytes, and the Bool
result. A rejected call performs no bus transfer. -/
def SPIBus.writeBurstRegister (b : HonestBus) (address : Nat)
    (data : Option (List Nat)) (length : Nat) : HonestBus × List Nat × Bool :=
  if data.isNone || length == 0 || decide (length > 64) then (b, [], false)
  else if address != 0x03 && address != 0x3F then (b, [], false)
  else
    let bytes := ((data.getD []).take length).map (fun x => x % 256)
    ({ b with bursts := b.bursts ++ [(address, bytes)] },
      (address ||| SPI_MASK.writeBurstTag) :: bytes, true)

/-- paTable (Constants.h): the 8-entry power table for the 315 MHz band. -/
def paTable : List Nat := [0x03, 0x0D, 0x1C, 0x34, 0x51, 0x85, 0xC8, 0xC0]

/-- Claim C8: writeBurstRegister returns false before any bus transfer when
length is 0, length exceeds 64, the data pointer is null, or the address is
not one of the two documented burst-capable addresses (the FIFO/config burst
target and the 8-byte power-table address 0x3E); for those two addresses with
1 <= length <= 64 it transmits the tagged address and the bytes and returns
true. The code instead accepts exactly the address pair 0x03 and 0x3F and
rejects the power-table address 0x3E, so the burst write its own caller
configurePATable issues can never succeed. -/
theorem C8_burst_address_bug :
    (SPIBus.writeBurstRegister honestInit CC1101.Address.PATABLE (some paTable) 8).2.2 = false ∧
    (SPIBus.writeBurstRegister honestInit CC1101.Address.PATABLE (some paTable) 8).2.1 = [] ∧
    (SPIBus.writeBurstRegister honestInit 0x03 (some paTable) 8).2.2 = true ∧
    (SPIBus.writeBurstRegister honestInit 0x3F (some paTable) 8).2.1 =
      0x7F :: paTable ∧
    (SPIBus.writeBurstRegister honestInit 0x3F (some paTable) 0).2.2 = false ∧
    (SPIBus.writeBurstRegister honestInit 0x3F (some paTable) 65).2.2 = false ∧
    (SPIBus.writeBurstRegister honestInit 0x3F none 8).2.2 = false := by
  refine ⟨rfl, rfl, rfl, by decide, rfl, rfl, rfl⟩

/-- Transcription of Transceiver::configurePATable (CC1101_Transceiver.cpp
lines 400-417): validates the index, burst-writes the 8-byte paTable to the
PATABLE address (the result is ignored by the source), then reads FREND0,
replaces its low 3 bits with the index, and writes the updated byte back -
to address CC1101::Value::FREND0 (0x11), as the source literally does, not
to CC1101::Address::FREND0 (0x22). -/
def Transceiver.configurePATable (b : HonestBus) (powerLevelIndex : Nat) : HonestBus :=
  if powerLevelIndex > 7 then b
  else
    let r := SPIBus.writeBurstRegister b CC1101.Address.PATABLE (some paTable) 8
    let b1 := r.1
    let frend0 := (SPIBus.readRegister b1 CC1101.Address.FREND0).value
    let frend0b := (frend0 &&& 0xF8) ||| (powerLevelIndex &&& 0x07)
    (SPIBus.writeRegister b1 CC1101.Value.FREND0 frend0b).1

/-- An honest bus whose FREND0 register (0x22) holds 0xA5 before power programming. -/
def busC9 : HonestBus :=
  { regs := fun a => if a = CC1101.Address.FREND0 then 0xA5 else 0,
    status := 0x0F, bursts := [] }

/-- Claim C9: after power programming with index i the 8-byte power table holds
the configured contents and FREND0 (0x22) holds its previous value with only
the low 3 bits replaced by i, and no other register is modified. The code
violates every part: the PATABLE burst write is rejected (0x3E is not in the
accepted address pair of writeBurstRegister), so no burst transaction ever
reaches the chip, FREND0 at 0x22 keeps its old value unchanged, and the
updated byte is instead written to register 0x11 because the source passes
CC1101::Value::FREND0 as the address. -/
theorem C9_configurePATable_bug :
    (Transceiver.configurePATable busC9 7).bursts = [] ∧
    (Transceiver.configurePATable busC9 7).regs CC1101.Address.FREND0 = 0xA5 ∧
    (Transceiver.configurePATable busC9 7).regs 0x11 = 0xA7 ∧
    (SPIBus.writeBurstRegister busC9 CC1101.Address.PATABLE (some paTable) 8).2.2 = false := by
  refine ⟨rfl, by decide, by decide, rfl⟩

/-- Transcription of Transceiver::setFrequency (CC1101_Transceiver.cpp lines
470-487): rejects frequencies outside 300 MHz - 928 MHz before any register
write, computes the frequency control word hz * 2^16 / 26000000 in 64-bit
arithmetic truncated to uint32, and programs its three bytes into FREQ2,
FREQ1 and FREQ0 in that order (the source extracts each byte with a shift
and a mask 0xFF, here a shift and a reduction modulo 256). -/
def Transceiver.setFrequency (b : HonestBus) (frequencyHz : Nat) : HonestBus :=
  if decide (frequencyHz < 300000000) || decide (frequencyHz > 928000000) then b
  else
    let freq : Nat := frequencyHz * 65536 / 26000000 % 4294967296
    let b1 := (SPIBus.writeRegister b CC1101.Address.FREQ2 ((freq >>> 16) % 256)).1
    let b2 := (SPIBus.writeRegister b1 CC1101.Address.FREQ1 ((freq >>> 8) % 256)).1
    (SPIBus.writeRegister b2 CC1101.Address.FREQ0 (freq % 256)).1

/-- Claim C4 counterexample: the claim states that setFrequency(315000000)
with a 26 MHz oscillator computes the tuning word 793161 (0x0C1B09) and
programs the middle byte 0x1B into FREQ1. The code computes
floor(315000000 * 65536 / 26000000) = 793993 = 0x0C1D89 and programs middle
byte 0x1D, so the claim is false at the input 315000000. -/
theorem C4_counterexample :
    315000000 * 65536 / 26000000 = 793993 ∧ (793993 : Nat) ≠ 793161 ∧
    (Transceiver.setFrequency honestInit 315000000).regs CC1101.Address.FREQ1 = 0x1D ∧
    (0x1D : Nat) ≠ 0x1B := by
  refine ⟨by decide, by decide, by decide, by decide⟩

/-- Claim C4 as amended: for input 315000000 Hz with a 26000000 Hz oscillator,
setFrequency computes the 24-bit tuning word
floor(315000000 * 65536 / 26000000) = 793993 (0x0C1D89) and programs the three
bytes 0x0C, 0x1D, 0x89 into FREQ2, FREQ1, FREQ0 in high/mid/low order; inputs
outside the 300 MHz - 928 MHz band are rejected with no register written. -/
theorem C4_setFrequency_amended (b : HonestBus) :
    ((Transceiver.setFrequency b 315000000).regs CC1101.Address.FREQ2 = 0x0C ∧
     (Transceiver.setFrequency b 315000000).regs CC1101.Address.FREQ1 = 0x1D ∧
     (Transceiver.setFrequency b 315000000).regs CC1101.Address.FREQ0 = 0x89) ∧
    (∀ hz, hz < 300000000 ∨ hz > 928000000 → Transceiver.setFrequency b hz = b) := by
  constructor
  · have hword : 315000000 * 65536 / 26000000 % 4294967296 = 793993 := by decide
    unfold Transceiver.setFrequency
    rw [if_neg (by decide)]
    simp only [hword]
    rw [SPIBus.writeRegister_state _ _ _ (by decide),
        SPIBus.writeRegister_state _ _ _ (by decide),
        SPIBus.writeRegister_state _ _ _ (by decide)]
    refine ⟨?_, ?_, ?_⟩ <;> simp [HonestBus.write, CC1101.Address.FREQ2,
      CC1101.Address.FREQ1, CC1101.Address.FREQ0]
  · intro hz hout
    unfold Transceiver.setFrequency
    rcases hout with h | h
    · rw [if_pos]
      simp [h]
    · rw [if_pos]
      simp [h]

theorem C4_setFrequency_amended_witness :
    ((0 : Nat) < 300000000 ∨ (0 : Nat) > 928000000) ∧
    Transceiver.setFrequency honestInit 0 = honestInit ∧
    (Transceiver.setFrequency honestInit 315000000).regs CC1101.Address.FREQ2 = 0x0C :=
  ⟨Or.inl (by decide),
    (C4_setFrequency_amended honestInit).2 0 (Or.inl (by decide)),
    (C4_setFrequency_amended honestInit).1.1⟩

/-- Transcription of Transceiver::strobeCommand (CC1101_Transceiver.cpp lines
423-454): up to 3 times sends the one-byte strobe (which does not change the
stored registers of the honest bus) and then verifies responsiveness by
reading PARTNUM and comparing it with 0x00; the success flag of the loop is
returned. -/
def Transceiver.strobeCommand (b : HonestBus) (command : Nat) : Bool :=
  let attempt : Bool → Bool × Bool := fun _ =>
    let partnum := (SPIBus.readRegister b CC1101.Address.PARTNUM).value
    if partnum == 0 then (true, false) else (false, true)
  repeat_withExitCondition 3 attempt false

theorem Transceiver.strobeCommand_eq (b : HonestBus) (command : Nat) :
    Transceiver.strobeCommand b command =
      ((SPIBus.readRegister b CC1101.Address.PARTNUM).value == 0) := by
  unfold Transceiver.strobeCommand
  by_cases h : (SPIBus.readRegister b CC1101.Address.PARTNUM).value == 0 <;>
    simp [repeat_withExitCondition, h]

/-- Transcription of Transceiver::enableTransmitMode (CC1101_Transceiver.cpp
lines 110-150). The C++ function returns void; the Bool returned here is the
internal success flag the source computes and then discards. If MARCSTATE is
not the IDLE code 0x01, SIDLE is strobed with up to 3 retries and failure
causes an early (void) return. Then with up to 3 retries STX is strobed and
MARCSTATE is checked against the TX code 0x13. -/
def Transceiver.enableTransmitMode (b : HonestBus) : Bool :=
  let idlePhase : Bool :=
    if (SPIBus.readRegister b CC1101.Address.MARCSTATE).value != 0x01 then
      repeat_withExitCondition 3 (fun _ : Bool =>
        if !(Transceiver.strobeCommand b CC1101.Strobes.SIDLE) then (false, true)
        else (true, false)) false
    else true
  if !idlePhase then false
  else
    repeat_withExitCondition 3 (fun _ : Bool =>
      if !(Transceiver.strobeCommand b CC1101.Strobes.STX) then (false, true)
      else if (SPIBus.readRegister b CC1101.Address.MARCSTATE).value != 0x13 then (false, true)
      else (true, false)) false

/-- The six logical symbols the SC41344 bit encoder can emit
(IBitEncoder.h interface methems: sendOne, sendZero, sendOpen, sendSilence, sendPreamble, setIdle). -/
inductive TxSymbol where
  | preamble
  | zero
  | one
  | openSym
  | silence
  | idle
deriving DecidableEq, Repr

/-- FRAME_REPEATS (Constants.h line 46): number of repeated silence+word groups. -/
def FRAME_REPEATS : Nat := 3

/-- The sendBit lambda of SC41344_FrameStreamer::streamFrame: bit 1 becomes
sendOne, anything else sendZero. -/
def sendBit (bit : Nat) : TxSymbol :=
  if bit == 1 then TxSymbol.one else TxSymbol.zero

/-- The sendFrame lambda of SC41344_FrameStreamer::streamFrame: every data bit
through the encoder, then the open (trailer) symbol. -/
def sendFrameWord (bits : List Nat) : List TxSymbol :=
  bits.map sendBit ++ [TxSymbol.openSym]

/-- Transcription of avr_algorithms::repeat as used by streamFrame: the body
emission, concatenated n times. -/
def avrRepeat (n : Nat) (body : List TxSymbol) : List TxSymbol :=
  List.flatten (List.replicate n body)

/-- Transcription of SC41344_FrameStreamer::streamFrame
(SC41344_FrameStreamer.h lines 195-236): preamble, first word, FRAME_REPEATS
times (silence then word), then idle. The emitted list records the encoder
calls in order. -/
def streamFrame (bits : List Nat) : List TxSymbol :=
  TxSymbol.preamble ::
    (sendFrameWord bits ++
      avrRepeat FRAME_REPEATS (TxSymbol.silence :: sendFrameWord bits) ++ [TxSymbol.idle])

/-- Transcription of Transceiver::transmitFrame (CC1101_Transceiver.h lines
101-133): calls enableTransmitMode (a void call, result discarded; the check
of MARCSTATE against 0x13 after it is commented out in the source), streams
the frame unconditionally, then strobes SIDLE and returns false when that
strobe fails, true otherwise. -/
def Transceiver.transmitFrame (b : HonestBus) (code_DataBits : List Nat) :
    List TxSymbol × Bool :=
  let _txOk := Transceiver.enableTransmitMode b
  let waveform := streamFrame code_DataBits
  if !(Transceiver.strobeCommand b CC1101.Strobes.SIDLE) then (waveform, false)
  else (waveform, true)

/-- An honest bus on which TX-mode verification fails (MARCSTATE reads 0x00,
never 0x13) while strobes succeed (PARTNUM reads 0x00). -/
def busC3 : HonestBus := { regs := fun _ => 0, status := 0x0F, bursts := [] }

/-- Claim C3 counterexample: the claim states the waveform is emitted by the
frame streamer only when the TX-mode verification succeeds and that the
returned boolean is true only if the mode transition, the streaming and the
return to idle all succeeded. On busC3 the TX verification fails
(enableTransmitMode ends with its success flag false because MARCSTATE never
reads 0x13), yet transmitFrame emits the full waveform and returns true. -/
theorem C3_counterexample :
    Transceiver.enableTransmitMode busC3 = false ∧
    (Transceiver.transmitFrame busC3 [0, 1, 0]).2 = true ∧
    (Transceiver.transmitFrame busC3 [0, 1, 0]).1 = streamFrame [0, 1, 0] ∧
    streamFrame [0, 1, 0] ≠ [] := by
  refine ⟨rfl, rfl, rfl, by decide⟩

/-- Claim C3 as amended: transmitFrame calls enableTransmitMode, which issues
the TX command and checks the mode register for the TX-state code 0x13 with
up to 3 retries, but its result is discarded (the source routine is void and
the TX check in transmitFrame is commented out); the frame streamer emits the
waveform unconditionally; an idle command is issued afterward and the
returned boolean is true exactly when that idle strobe succeeds. -/
theorem C3_transmitFrame_amended (b : HonestBus) (bits : List Nat) :
    (Transceiver.transmitFrame b bits).1 = streamFrame bits ∧
    ((Transceiver.transmitFrame b bits).2 = true ↔
      Transceiver.strobeCommand b CC1101.Strobes.SIDLE = true) ∧
    (Transceiver.enableTransmitMode b = true →
      (SPIBus.readRegister b CC1101.Address.MARCSTATE).value = 0x13) := by
  refine ⟨?_, ?_, ?_⟩
  · unfold Transceiver.transmitFrame
    split <;> rfl
  · unfold Transceiver.transmitFrame
    by_cases h : Transceiver.strobeCommand b CC1101.Strobes.SIDLE <;> simp [h]
  · intro h
    unfold Transceiver.enableTransmitMode at h
    by_cases hm : (SPIBus.readRegister b CC1101.Address.MARCSTATE).value = 0x13
    · exact hm
    · exfalso
      by_cases hstx : Transceiver.strobeCommand b CC1101.Strobes.STX <;>
        by_cases hsidle : Transceiver.strobeCommand b CC1101.Strobes.SIDLE <;>
          simp [hstx, hsidle, hm, repeat_withExitCondition] at h

/-- An honest bus on which the TX transition verifies: MARCSTATE reads 0x13
and PARTNUM reads 0x00. -/
def busTx : HonestBus :=
  { regs := fun a => if a = CC1101.Address.MARCSTATE then 0x13 else 0,
    status := 0x0F, bursts := [] }

theorem C3_transmitFrame_amended_witness :
    Transceiver.enableTransmitMode busTx = true ∧
    (SPIBus.readRegister busTx CC1101.Address.MARCSTATE).value = 0x13 :=
  ⟨by decide, (C3_transmitFrame_amended busTx []).2.2 (by decide)⟩

theorem sendBit_ne_openSym (bit : Nat) : sendBit bit ≠ TxSymbol.openSym := by
  unfold sendBit
  split <;> simp

theorem sendBit_ne_preamble (bit : Nat) : sendBit bit ≠ TxSymbol.preamble := by
  unfold sendBit
  split <;> simp

theorem sendBit_ne_silence (bit : Nat) : sendBit bit ≠ TxSymbol.silence := by
  unfold sendBit
  split <;> simp

theorem count_map_sendBit (bits : List Nat) (s : TxSymbol)
    (h : ∀ bit, sendBit bit ≠ s) : (bits.map sendBit).count s = 0 := by
  rw [List.count_eq_zero]
  intro hm
  rcases List.mem_map.1 hm with ⟨b, _, hb⟩
  exact h b hb

/-- Claim C5: for every N-bit frame the frame streamer emits exactly one
preamble, then one word (each data bit as its symbol followed by one
trailer), then FRAME_REPEATS repetitions of silence followed by a word, then
one idle; total transmitted words (counted by their trailer symbol) equal
1 + FRAME_REPEATS, and for N = 8 with FRAME_REPEATS = 3 the emitted
symbol-call sequence has length 1 + 4 * (8 + 1) + 3 + 1 = 41. -/
theorem C5_streamFrame_shape (bits : List Nat) :
    (streamFrame bits).length =
      1 + (1 + FRAME_REPEATS) * (bits.length + 1) + FRAME_REPEATS + 1 ∧
    (streamFrame bits).count TxSymbol.openSym = 1 + FRAME_REPEATS ∧
    (streamFrame bits).count TxSymbol.preamble = 1 ∧
    (streamFrame bits).count TxSymbol.silence = FRAME_REPEATS ∧
    (streamFrame bits).getLast? = some TxSymbol.idle ∧
    (streamFrame bits).head? = some TxSymbol.preamble ∧
    (bits.length = 8 → (streamFrame bits).length = 41) := by
  have hrep : avrRepeat FRAME_REPEATS (TxSymbol.silence :: sendFrameWord bits) =
      (TxSymbol.silence :: sendFrameWord bits) ++
        ((TxSymbol.silence :: sendFrameWord bits) ++
          (TxSymbol.silence :: sendFrameWord bits)) := by
    simp [avrRepeat, FRAME_REPEATS, List.replicate, List.flatten]
  have hlen : (streamFrame bits).length =
      1 + (1 + FRAME_REPEATS) * (bits.length + 1) + FRAME_REPEATS + 1 := by
    unfold streamFrame
    rw [hrep]
    simp [sendFrameWord, FRAME_REPEATS]
    omega
  refine ⟨hlen, ?_, ?_, ?_, ?_, ?_, ?_⟩
  · unfold streamFrame
    rw [hrep]
    simp [sendFrameWord, List.count_cons, List.count_append,
      count_map_sendBit bits _ sendBit_ne_openSym, FRAME_REPEATS]
  · unfold streamFrame
    rw [hrep]
    simp [sendFrameWord, List.count_cons, List.count_append,
      count_map_sendBit bits _ sendBit_ne_preamble, FRAME_REPEATS]
  · unfold streamFrame
    rw [hrep]
    simp [sendFrameWord, List.count_cons, List.count_append,
      count_map_sendBit bits _ sendBit_ne_silence, FRAME_REPEATS]
  · have hsplit : streamFrame bits =
        (TxSymbol.preamble ::
          (sendFrameWord bits ++
            avrRepeat FRAME_REPEATS (TxSymbol.silence :: sendFrameWord bits))) ++
          [TxSymbol.idle] := by
      simp [streamFrame]
    rw [hsplit]
    exact List.getLast?_concat _
  · simp [streamFrame]
  · intro h8
    rw [hlen, h8]
    decide

theorem C5_streamFrame_witness :
    (List.replicate 8 0).length = 8 ∧
    (streamFrame (List.replicate 8 0)).length = 41 :=
  ⟨by decide, (C5_streamFrame_shape (List.replicate 8 0)).2.2.2.2.2.2 (by decide)⟩

/-- BUFFER_SIZE (CircularDebounceBuffer.h line 11): circular buffer capacity. -/
def BUFFER_SIZE : Nat := 16

/-- MAX_CALLBACKS (CircularDebounceBuffer.h line 14): callback slot count. -/
def MAX_CALLBACKS : Nat := 4

/-- The threshold computation of CircularDebounceBuffer::update (line 134):
thresholdCount = (BUFFER_SIZE * thresholdPercentage + 99) / 100. -/
def thresholdCount (percentage : Nat) : Nat :=
  (BUFFER_SIZE * percentage + 99) / 100

/-- The mutable state of a CircularDebounceBuffer (CircularDebounceBuffer.h).
Callbacks are modelled as numeric identifiers with 0 standing for a null
function pointer; the registered slots are the list in registration order. -/
structure DebounceState where
  debouncing : Bool
  stableState : Bool
  pressedDetected : Bool
  buffer : List Bool
  head : Nat
  thresholdPercentage : Nat
  callbacks : List Nat
deriving DecidableEq, Repr

/-- The constructed engine (CircularDebounceBuffer constructor): disarmed,
released, cleared buffer, default threshold percentage 90, no callbacks. -/
def DebounceState.initial : DebounceState :=
  { debouncing := false, stableState := false, pressedDetected := false,
    buffer := List.replicate BUFFER_SIZE false, head := 0,
    thresholdPercentage := 90, callbacks := [] }

/-- Transcription of CircularDebounceBuffer::addCallback (lines 67-72):
stores the callback only while fewer than MAX_CALLBACKS are registered. -/
def CircularDebounceBuffer.addCallback (s : DebounceState) (cb : Nat) : DebounceState :=
  if s.callbacks.length < MAX_CALLBACKS then { s with callbacks := s.callbacks ++ [cb] }
  else s

/-- Transcription of CircularDebounceBuffer::startDebounce (lines 78-87):
arms a session only when not debouncing and the stable state is released. -/
def CircularDebounceBuffer.startDebounce (s : DebounceState) : DebounceState :=
  if !s.debouncing && !s.stableState then
    { s with
      debouncing := true
      pressedDetected := false
      buffer := List.replicate BUFFER_SIZE false
      head := 0 }
  else s

/-- Transcription of CircularDebounceBuffer::reset (lines 191-198). -/
def CircularDebounceBuffer.reset (s : DebounceState) : DebounceState :=
  { s with
    buffer := List.replicate BUFFER_SIZE false
    head := 0
    stableState := false
    pressedDetected := false
    debouncing := false
    callbacks := [] }

/-- Transcription of CircularDebounceBuffer::update (lines 100-177) applied
to one normalized sample (the pin read and active-low adjustment of steps 1-4
produce the Bool argument; one call of the model is one elapsed sample
interval). The second component is some list of invoked callbacks when a
press is confirmed (the source skips null pointers, here the identifier 0)
and none otherwise. -/
def CircularDebounceBuffer.update (s : DebounceState) (sample : Bool) :
    DebounceState × Option (List Nat) :=
  if !s.debouncing then (s, none)
  else
    let buf := s.buffer.set s.head sample
    let head2 := (s.head + 1) % BUFFER_SIZE
    let trueCount := buf.count true
    let tc := thresholdCount s.thresholdPercentage
    if !s.pressedDetected then
      if trueCount ≥ tc then
        ({ s with
            buffer := buf
            head := head2
            stableState := true
            pressedDetected := true },
          some (s.callbacks.filter (fun cb => cb != 0)))
      else ({ s with buffer := buf, head := head2 }, none)
    else
      if trueCount ≤ BUFFER_SIZE - tc then
        ({ s with
            buffer := List.replicate BUFFER_SIZE false
            head := 0
            stableState := false
            pressedDetected := false
            debouncing := false }, none)
      else ({ s with buffer := buf, head := head2 }, none)

/-- Number of confirmed-press callback invocations along a sample sequence. -/
def runFireCount : DebounceState → List Bool → Nat
  | _, [] => 0
  | s, x :: xs =>
      let r := CircularDebounceBuffer.update s x
      (if r.2.isSome then 1 else 0) + runFireCount r.1 xs

theorem update_not_debouncing (s : DebounceState) (x : Bool)
    (h : s.debouncing = false) : CircularDebounceBuffer.update s x = (s, none) := by
  unfold CircularDebounceBuffer.update
  simp [h]

theorem update_blocked (s : DebounceState) (x : Bool)
    (h : s.pressedDetected = true ∨ s.debouncing = false) :
    (CircularDebounceBuffer.update s x).2 = none ∧
      ((CircularDebounceBuffer.update s x).1.pressedDetected = true ∨
        (CircularDebounceBuffer.update s x).1.debouncing = false) := by
  rcases h with hp | hd
  · by_cases hd : s.debouncing
    · unfold CircularDebounceBuffer.update
      simp only [hd, hp, Bool.not_true, Bool.false_eq_true, if_false]
      split <;> simp [hp]
    · simp only [Bool.not_eq_true] at hd
      rw [update_not_debouncing s x hd]
      exact ⟨rfl, Or.inr hd⟩
  · rw [update_not_debouncing s x hd]
    exact ⟨rfl, Or.inr hd⟩

theorem update_press_branch (s : DebounceState) (x : Bool)
    (hd : s.debouncing = true) (hp : s.pressedDetected = false) :
    ((CircularDebounceBuffer.update s x).2.isSome = true →
      (CircularDebounceBuffer.update s x).1.pressedDetected = true) ∧
    ((CircularDebounceBuffer.update s x).2.isSome = false →
      (CircularDebounceBuffer.update s x).1.pressedDetected = false) := by
  unfold CircularDebounceBuffer.update
  simp only [hd, hp, Bool.not_true, Bool.not_false, Bool.false_eq_true, if_false, if_true]
  split <;> simp [hp]

theorem runFireCount_zero_of_blocked (xs : List Bool) :
    ∀ s : DebounceState, (s.pressedDetected = true ∨ s.debouncing = false) →
      runFireCount s xs = 0 := by
  induction xs with
  | nil => intro s _; rfl
  | cons x xs ih =>
      intro s hs
      obtain ⟨h2, h1⟩ := update_blocked s x hs
      unfold runFireCount
      simp only [h2, Option.isSome_none, Bool.false_eq_true, if_false, zero_add]
      exact ih _ h1

theorem runFireCount_le_one (xs : List Bool) :
    ∀ s : DebounceState, s.pressedDetected = false →
      runFireCount s xs ≤ 1 := by
  induction xs with
  | nil => intro s _; exact Nat.zero_le 1
  | cons x xs ih =>
      intro s hp
      unfold runFireCount
      by_cases hd : s.debouncing
      · by_cases hf : (CircularDebounceBuffer.update s x).2.isSome
        · have hnext := (update_press_branch s x hd hp).1 hf
          have h0 := runFireCount_zero_of_blocked xs _ (Or.inl hnext)
          simp only [hf, if_true, h0]
          omega
        · have hnext := (update_press_branch s x hd hp).2 (by simp [hf])
          simp only [hf, Bool.false_eq_true, if_false, zero_add]
          exact ih _ hnext
      · simp only [Bool.not_eq_true] at hd
        rw [update_not_debouncing s x hd]
        simp only [Option.isSome_none, Bool.false_eq_true, if_false, zero_add]
        exact ih s hp

/-- Claim C6: with buffer capacity 16, for every armed debounce session and
every sample sequence the registered callbacks are invoked exactly once per
session, at the first sample where trueCount reaches
thresholdCount = ceil(16 * thresholdPercent / 100) (part 1 states that the
source formula (16 * p + 99) / 100 is that ceiling, parts 2 and 3 that a
press fires at a sample exactly when the count reaches the threshold and at
most once per session); after a press no callback fires again until a sample
makes trueCount at most 16 - thresholdCount, which sets the stable state to
released, clears the buffer and disarms the session (part 4); for
thresholdPercent = 60 a press requires trueCount at least 10 and a release
requires trueCount at most 6 (part 5). -/
theorem C6_debounce :
    (∀ p : Nat, 16 * p ≤ 100 * thresholdCount p ∧
      100 * thresholdCount p < 16 * p + 100) ∧
    (∀ (s : DebounceState) (xs : List Bool), s.pressedDetected = false →
      runFireCount s xs ≤ 1) ∧
    (∀ (s : DebounceState) (x : Bool), s.debouncing = true →
      s.pressedDetected = false →
      ((CircularDebounceBuffer.update s x).2.isSome = true ↔
        thresholdCount s.thresholdPercentage ≤ (s.buffer.set s.head x).count true)) ∧
    (∀ (s : DebounceState) (x : Bool), s.debouncing = true →
      s.pressedDetected = true →
      (CircularDebounceBuffer.update s x).2 = none ∧
      ((s.buffer.set s.head x).count true ≤
          BUFFER_SIZE - thresholdCount s.thresholdPercentage →
        (CircularDebounceBuffer.update s x).1.stableState = false ∧
        (CircularDebounceBuffer.update s x).1.debouncing = false ∧
        (CircularDebounceBuffer.update s x).1.buffer =
          List.replicate BUFFER_SIZE false ∧
        (CircularDebounceBuffer.update s x).1.pressedDetected = false)) ∧
    (thresholdCount 60 = 10 ∧ BUFFER_SIZE - thresholdCount 60 = 6) := by
  refine ⟨?_, ?_, ?_, ?_, by decide, by decide⟩
  · intro p
    unfold thresholdCount BUFFER_SIZE
    omega
  · intro s xs hp
    exact runFireCount_le_one xs s hp
  · intro s x hd hp
    unfold CircularDebounceBuffer.update
    simp only [hd, hp, Bool.not_true, Bool.not_false, Bool.false_eq_true, if_false, if_true]
    split
    · rename_i h
      simp only [Option.isSome_some, true_iff]
      exact h
    · rename_i h
      simp only [Option.isSome_none, Bool.false_eq_true, false_iff]
      intro hc
      exact h hc
  · intro s x hd hp
    unfold CircularDebounceBuffer.update
    simp only [hd, hp, Bool.not_true, Bool.not_false, Bool.false_eq_true, if_false, if_true]
    split
    · exact ⟨rfl, fun _ => ⟨rfl, rfl, rfl, rfl⟩⟩
    · rename_i h
      exact ⟨rfl, fun hc => absurd hc h⟩

/-- An armed session with threshold 60 percent and one registered callback. -/
def sC6 : DebounceState :=
  { debouncing := true, stableState := false, pressedDetected := false,
    buffer := List.replicate BUFFER_SIZE false, head := 0,
    thresholdPercentage := 60, callbacks := [7] }

/-- A session in which a press already fired: pressed, still armed, buffer
holding six true samples. -/
def sC6pressed : DebounceState :=
  { debouncing := true, stableState := true, pressedDetected := true,
    buffer := List.replicate 6 true ++ List.replicate 10 false, head := 0,
    thresholdPercentage := 60, callbacks := [7] }

theorem C6_debounce_witness :
    (16 * 60 ≤ 100 * thresholdCount 60 ∧ 100 * thresholdCount 60 < 16 * 60 + 100) ∧
    runFireCount sC6 (List.replicate 16 true) ≤ 1 ∧
    ((CircularDebounceBuffer.update sC6 true).2.isSome = true ↔
      thresholdCount sC6.thresholdPercentage ≤
        (sC6.buffer.set sC6.head true).count true) ∧
    (CircularDebounceBuffer.update sC6pressed false).2 = none :=
  ⟨C6_debounce.1 60,
    C6_debounce.2.1 sC6 (List.replicate 16 true) (by decide),
    C6_debounce.2.2.1 sC6 true (by decide) (by decide),
    (C6_debounce.2.2.2.1 sC6pressed false (by decide) (by decide)).1⟩

theorem callbacks_foldl (cbs : List Nat) :
    ∀ s : DebounceState,
      (List.foldl CircularDebounceBuffer.addCallback s cbs).callbacks =
        s.callbacks ++ cbs.take (MAX_CALLBACKS - s.callbacks.length) := by
  induction cbs with
  | nil => intro s; simp
  | cons cb cbs ih =>
      intro s
      by_cases hlen : s.callbacks.length < MAX_CALLBACKS
      · have hadd : CircularDebounceBuffer.addCallback s cb =
            { s with callbacks := s.callbacks ++ [cb] } := by
          unfold CircularDebounceBuffer.addCallback
          rw [if_pos hlen]
        rw [List.foldl_cons, hadd, ih]
        obtain ⟨k, hk⟩ : ∃ k, MAX_CALLBACKS - s.callbacks.length = k + 1 :=
          ⟨MAX_CALLBACKS - s.callbacks.length - 1, by omega⟩
        have hk2 : MAX_CALLBACKS - (s.callbacks ++ [cb]).length = k := by
          simp only [List.length_append, List.length_singleton]
          omega
        rw [hk, hk2, List.take_succ_cons, List.append_assoc, List.singleton_append]
      · have hadd : CircularDebounceBuffer.addCallback s cb = s := by
          unfold CircularDebounceBuffer.addCallback
          rw [if_neg hlen]
        rw [List.foldl_cons, hadd, ih]
        have hk : MAX_CALLBACKS - s.callbacks.length = 0 := by omega
        rw [hk]
        simp

/-- Claim C10: the debounce engine holds at most 4 callback registrations; for
every sequence of addCallback calls since construction (or since reset, which
empties the registration slots) registrations beyond the fourth are silently
discarded, the internal registration count never exceeds 4, and a confirmed
press invokes exactly the first at-most-4 registered callbacks in
registration order (the source skips null pointers; when no null callback was
registered the invoked list is exactly the first four registrations). -/
theorem C10_callbacks :
    (∀ cbs : List Nat,
      (List.foldl CircularDebounceBuffer.addCallback DebounceState.initial cbs).callbacks =
        cbs.take MAX_CALLBACKS) ∧
    (∀ cbs : List Nat,
      (List.foldl CircularDebounceBuffer.addCallback DebounceState.initial cbs).callbacks.length ≤
        MAX_CALLBACKS) ∧
    (∀ s : DebounceState, (CircularDebounceBuffer.reset s).callbacks = []) ∧
    (∀ (s : DebounceState) (x : Bool), s.debouncing = true →
      s.pressedDetected = false →
      thresholdCount s.thresholdPercentage ≤ (s.buffer.set s.head x).count true →
      (CircularDebounceBuffer.update s x).2 =
        some (s.callbacks.filter (fun cb => cb != 0))) ∧
    (∀ cbs : List Nat, ¬ 0 ∈ cbs →
      (cbs.take MAX_CALLBACKS).filter (fun cb => cb != 0) = cbs.take MAX_CALLBACKS) := by
  have htake : ∀ cbs : List Nat,
      (List.foldl CircularDebounceBuffer.addCallback DebounceState.initial cbs).callbacks =
        cbs.take MAX_CALLBACKS := by
    intro cbs
    rw [callbacks_foldl cbs DebounceState.initial]
    simp [DebounceState.initial]
  refine ⟨htake, ?_, ?_, ?_, ?_⟩
  · intro cbs
    rw [htake cbs]
    exact le_trans (List.length_take_le _ _) (le_refl _)
  · intro s
    rfl
  · intro s x hd hp hcnt
    unfold CircularDebounceBuffer.update
    simp only [hd, hp, Bool.not_true, Bool.not_false, Bool.false_eq_true, if_false, if_true]
    rw [if_pos hcnt]
  · intro cbs h0
    rw [List.filter_eq_self]
    intro a ha
    have hmem : a ∈ cbs := List.take_subset _ _ ha
    simp only [bne_iff_ne, ne_eq]
    intro heq
    exact h0 (heq ▸ hmem)

/-- A fully pressed armed session with two registered callbacks. -/
def sC10 : DebounceState :=
  { debouncing := true, stableState := false, pressedDetected := false,
    buffer := List.replicate 16 true, head := 0,
    thresholdPercentage := 60, callbacks := [7, 8] }

theorem C10_callbacks_witness :
    (List.foldl CircularDebounceBuffer.addCallback DebounceState.initial
      [7, 8, 9, 10, 11]).callbacks = [7, 8, 9, 10] ∧
    (CircularDebounceBuffer.update sC10 true).2 = some [7, 8] ∧
    ([7, 8, 9, 10, 11].take MAX_CALLBACKS).filter (fun cb => cb != 0) =
      [7, 8, 9, 10] := by
  refine ⟨?_, ?_, ?_⟩
  · have h := C10_callbacks.1 [7, 8, 9, 10, 11]
    rw [h]
    decide
  · have h := C10_callbacks.2.2.2.1 sC10 true (by decide) (by decide) (by decide)
    rw [h]
    decide
  · have h := C10_callbacks.2.2.2.2 [7, 8, 9, 10, 11] (by decide)
    rw [h]
    decide

/-- RegisterSettings (RegisterSettings.h): one configuration step. -/
structure RegisterSettings where
  reg : Nat
  reg_value : Nat
  verify : Bool
deriving DecidableEq, Repr

/-- Transcription of avr_algorithms::for_each_element (const buffer overload,
avr_algorithms.hpp lines 567-572): applies the function to every element of
the buffer; the Bool the function returns is discarded, so the iteration
never stops early. The mutable captures of the C++ lambda are threaded as an
explicit state. -/
def avr_algorithms.for_each_element {α σ : Type} (buffer : List α) (s : σ)
    (func : σ → α → σ) : σ :=
  List.foldl func s buffer

/-- Transcription of the writeAndVerifyRegister lambda of
applyRegisterConfig_CC1101 (HelperConfigRegisters_CC1101.h lines 97-134):
reads address, value and verify flag through the storage policy (the RAM
policy is a plain dereference), writes, and on failure returns false; when
the verify flag is set it re-reads and compares, returning false on mismatch;
otherwise true. -/
def writeAndVerifyRegister {σ : Type} (writeRegister : σ → Nat → Nat → σ × Bool)
    (readRegister : σ → Nat → σ × Nat) (st : σ) (regSettings : RegisterSettings) :
    σ × Bool :=
  let address := regSettings.reg
  let value := regSettings.reg_value
  let verify := regSettings.verify
  let w := writeRegister st address value
  if !w.2 then (w.1, false)
  else if verify then
    let r := readRegister w.1 address
    if r.2 != value then (r.1, false) else (r.1, true)
  else (w.1, true)

/-- Transcription of applyRegisterConfig_CC1101
(HelperConfigRegisters_CC1101.h lines 94-138): runs writeAndVerifyRegister
over the whole settings list through for_each_element, whose element function
discards the Bool result of the lambda, and then returns true
unconditionally. -/
def applyRegisterConfig_CC1101 {σ : Type} (config : List RegisterSettings)
    (writeRegister : σ → Nat → Nat → σ × Bool) (readRegister : σ → Nat → σ × Nat)
    (st : σ) : σ × Bool :=
  let st2 := avr_algorithms.for_each_element config st
    (fun s rs => (writeAndVerifyRegister writeRegister readRegister s rs).1)
  (st2, true)

/-- A write function over a log of attempted writes that fails exactly on
register address 2: every call is recorded, so the log length counts the
write attempts the applier made. -/
def logWrite (log : List (Nat × Nat)) (address value : Nat) :
    List (Nat × Nat) × Bool :=
  (log ++ [(address, value)], !(address == 2))

/-- A read function over the same log: reads return 0 and do not log. -/
def logRead (log : List (Nat × Nat)) (address : Nat) : List (Nat × Nat) × Nat :=
  (log, 0)

/-- The 3-entry configuration list of the claim: entry 2 (address 2) fails. -/
def config3 : List RegisterSettings :=
  [{ reg := 1, reg_value := 10, verify := false },
   { reg := 2, reg_value := 20, verify := false },
   { reg := 3, reg_value := 30, verify := false }]

/-- Claim C2: the configuration applier processes the settings in order and,
when writeRegister fails for an entry, aborts immediately without processing
the remaining entries (in a 3-entry list where entry 2 fails, entry 3 is
never attempted), and its boolean result is true only if every entry
succeeded. The code violates this: for_each_element discards the per-entry
Bool, so after the failing write of entry 2 the write of entry 3 is still
attempted (the log records all three attempts), and the applier returns true
even though entry 2 failed, contradicting the doc comment of the source
(return true if all write operations succeed and verification passes, false
otherwise). -/
theorem C2_applyConfig_no_abort :
    applyRegisterConfig_CC1101 config3 logWrite logRead [] =
      ([(1, 10), (2, 20), (3, 30)], true) ∧
    (writeAndVerifyRegister logWrite logRead [(1, 10)]
      { reg := 2, reg_value := 20, verify := false }).2 = false := by
  refine ⟨rfl, rfl⟩
